import Mathlib

/-!
Shallow embedding of the adaptive-ingestion database layer
(`src/database/connection.py` and `src/database/setup.py`).

The driver (psycopg2) is abstracted as an environment that fixes the
outcome of every low-level call a single executor invocation can make
(`pool.getconn`, `connection.cursor`, `cursor.execute` /
`cursor.executemany`, `cursor.fetchall`, `connection.commit`).  The three
executor methods `execute_query`, `execute_update` and `execute_many` are
translated statement by statement, including their `except` chains and
`finally` blocks; each returns the value or escaping exception together
with the ordered trace of pool/connection events.
-/

namespace AdaptiveIngestion

/-- The psycopg2 / builtin exception classes that the source's `except`
clauses distinguish.  `InternalError` stands for any psycopg2 error class
with no dedicated clause in the source (InternalError, NotSupportedError,
InterfaceError, ...); `PlainExc` is builtins `Exception` itself, which is
also the class of every exception the source raises after classifying. -/
inductive PyClass where
  | PoolError
  | OperationalError
  | ProgrammingError
  | IntegrityError
  | DataError
  | InternalError
  | TypeErr
  | ValueErr
  | PlainExc
  deriving DecidableEq, Repr

/-- A raw driver-level exception: its Python class and its message. -/
structure PyExc where
  cls : PyClass
  msg : String
  deriving DecidableEq, Repr

/-- The spec's error taxonomy (spec sections 3 and 7). -/
inductive ErrorKind where
  | PoolExhausted
  | ConnectionFailure
  | QueryError
  | ConstraintViolation
  | InvalidData
  | InvalidParameters
  | Unexpected
  deriving DecidableEq, Repr

/-- An error escaping one of the executor methods: either a plain
`Exception(msg)` raised at a classification site of the source — tagged
with the taxonomy kind the spec assigns to that message family — or an
original driver exception propagated unchanged because no `except` clause
of the method matched it. -/
inductive RError where
  | classified (k : ErrorKind) (msg : String)
  | raw (e : PyExc)
  deriving DecidableEq, Repr

/-- Taxonomy kind carried by an escaping error, if any.  A `raw` error
escaped unclassified. -/
def errorKindOf : RError → Option ErrorKind
  | .classified k _ => some k
  | .raw _ => none

/-- Observable pool/connection events, recorded in call order. -/
inductive Event where
  | getconnOk
  | putconn
  | cursorExec
  | fetchall
  | commit
  | rollback
  | cursorClose
  deriving DecidableEq, Repr

/-- Outcome of each driver call a single executor invocation can make:
`none` (resp. `.ok`) means the call succeeds, otherwise it raises the
given exception.  `cursor.close()` and `connection.rollback()` are
modelled as never raising.  `rowcount` is the value of `cursor.rowcount`
after a successful execute. -/
structure DriverEnv where
  getconn   : Option PyExc
  cursorAcq : Option PyExc
  exec      : Option PyExc
  fetchall  : Except PyExc (List (List String))
  commit    : Option PyExc
  rowcount  : Int
  deriving Repr

/-- `DatabaseConnection._get_connection_and_cursor` (connection.py:23-31).
Returns `.ok` exactly when both `pool.getconn()` and `connection.cursor()`
succeed — only then does the caller's tuple assignment bind its local
`connection` variable.  The trace records whether a connection was
actually taken out of the pool. -/
def getConnectionAndCursor (env : DriverEnv) : Except RError Unit × List Event :=
  match env.getconn with
  | some e =>
      if e.cls = .PoolError then
        (.error (.classified .PoolExhausted "Connection pool exhausted"), [])
      else if e.cls = .OperationalError then
        (.error (.classified .ConnectionFailure "Database initial connection failed, try again"), [])
      else
        (.error (.raw e), [])
  | none =>
      match env.cursorAcq with
      | some e =>
          if e.cls = .PoolError then
            (.error (.classified .PoolExhausted "Connection pool exhausted"), [Event.getconnOk])
          else if e.cls = .OperationalError then
            (.error (.classified .ConnectionFailure "Database initial connection failed, try again"),
             [Event.getconnOk])
          else
            (.error (.raw e), [Event.getconnOk])
      | none => (.ok (), [Event.getconnOk])

/-- The `except` chain of `execute_query` (connection.py:42-51), applied
to whatever escapes the `try` body.  A classification-site `Exception`
(Python class `Exception`) matches only the final catch-all clause, so it
is re-wrapped as an unexpected database error. -/
def classifyQueryErr : RError → RError
  | .classified _ m => .classified .Unexpected ("Unexpected database error: " ++ m)
  | .raw e =>
      if e.cls = .PoolError then
        .classified .PoolExhausted "Connection pool exhausted"
      else if e.cls = .OperationalError then
        .classified .ConnectionFailure "Database connection failed during query, try again"
      else if e.cls = .ProgrammingError then
        .classified .QueryError ("Query error: " ++ e.msg)
      else if e.cls = .IntegrityError then
        .classified .ConstraintViolation ("Data Constraint violation: " ++ e.msg)
      else
        .classified .Unexpected ("Unexpected database error: " ++ e.msg)

/-- `DatabaseConnection.execute_query` (connection.py:34-54).  The
`finally` block calls `putconn` only when the local `connection` variable
is truthy, i.e. only when `_get_connection_and_cursor` returned. -/
def execute_query (env : DriverEnv) : Except RError (List (List String)) × List Event :=
  match getConnectionAndCursor env with
  | (.error e, tr) => (.error (classifyQueryErr e), tr)
  | (.ok _, tr) =>
      match env.exec with
      | some e => (.error (classifyQueryErr (.raw e)), tr ++ [Event.putconn])
      | none =>
          match env.fetchall with
          | .error e =>
              (.error (classifyQueryErr (.raw e)), tr ++ [Event.cursorExec, Event.putconn])
          | .ok rows =>
              (.ok rows,
               tr ++ [Event.cursorExec, Event.fetchall, Event.cursorClose, Event.putconn])

/-- The `except` chain of `execute_update` (connection.py:65-82) for an
exception raised after `connection` was bound: the matching clause may
roll back, and the `finally` block then releases the connection.  An
exception matched by no clause propagates unchanged, with release but
without rollback. -/
def updateChainBound (e : PyExc) : RError × List Event :=
  if e.cls = .PoolError then
    (.classified .PoolExhausted "Connection pool exhausted", [Event.putconn])
  else if e.cls = .OperationalError then
    (.classified .ConnectionFailure "Database connection failed during update, try again",
     [Event.rollback, Event.putconn])
  else if e.cls = .IntegrityError then
    (.classified .ConstraintViolation ("Data constraint violation: " ++ e.msg),
     [Event.rollback, Event.putconn])
  else if e.cls = .DataError then
    (.classified .InvalidData ("Invalid data: " ++ e.msg), [Event.rollback, Event.putconn])
  else if e.cls = .ProgrammingError then
    (.classified .QueryError ("Query error: " ++ e.msg), [Event.rollback, Event.putconn])
  else
    (.raw e, [Event.putconn])

/-- The same `except` chain for an exception escaping
`_get_connection_and_cursor`, where `connection` is still `None`: the
`if connection:` guards skip rollback and the `finally` block skips
release.  The helper's own classified raises (Python class `Exception`)
match no clause of `execute_update` and propagate unchanged. -/
def updateChainUnbound : RError → RError
  | .classified k m => .classified k m
  | .raw e =>
      if e.cls = .PoolError then
        .classified .PoolExhausted "Connection pool exhausted"
      else if e.cls = .OperationalError then
        .classified .ConnectionFailure "Database connection failed during update, try again"
      else if e.cls = .IntegrityError then
        .classified .ConstraintViolation ("Data constraint violation: " ++ e.msg)
      else if e.cls = .DataError then
        .classified .InvalidData ("Invalid data: " ++ e.msg)
      else if e.cls = .ProgrammingError then
        .classified .QueryError ("Query error: " ++ e.msg)
      else
        .raw e

/-- `DatabaseConnection.execute_update` (connection.py:56-85). -/
def execute_update (env : DriverEnv) : Except RError Int × List Event :=
  match getConnectionAndCursor env with
  | (.error e, tr) => (.error (updateChainUnbound e), tr)
  | (.ok _, tr) =>
      match env.exec with
      | some e =>
          let p := updateChainBound e
          (.error p.1, tr ++ p.2)
      | none =>
          match env.commit with
          | some e =>
              let p := updateChainBound e
              (.error p.1, tr ++ [Event.cursorExec] ++ p.2)
          | none =>
              (.ok env.rowcount,
               tr ++ [Event.cursorExec, Event.commit, Event.cursorClose, Event.putconn])

/-- The `except` chain of `execute_many` (connection.py:98-119) for an
exception raised after `connection` was bound. -/
def manyChainBound (e : PyExc) : RError × List Event :=
  if e.cls = .PoolError then
    (.classified .PoolExhausted "Connection pool exhausted", [Event.putconn])
  else if e.cls = .OperationalError then
    (.classified .ConnectionFailure ("Database connection failed: " ++ e.msg),
     [Event.rollback, Event.putconn])
  else if e.cls = .IntegrityError then
    (.classified .ConstraintViolation ("Batch operation has failed - constraint violation: " ++ e.msg),
     [Event.rollback, Event.putconn])
  else if e.cls = .DataError then
    (.classified .InvalidData ("Batch operation has failed - invalid data: " ++ e.msg),
     [Event.rollback, Event.putconn])
  else if e.cls = .ProgrammingError then
    (.classified .QueryError ("Query error: " ++ e.msg), [Event.rollback, Event.putconn])
  else if e.cls = .TypeErr ∨ e.cls = .ValueErr then
    (.classified .InvalidParameters ("Invalid parameters format: " ++ e.msg),
     [Event.rollback, Event.putconn])
  else
    (.raw e, [Event.putconn])

/-- The same chain for an exception raised while `connection` is `None`
(the empty-list `ValueError` or a failure inside the acquisition helper):
no rollback, no release. -/
def manyChainUnbound : RError → RError
  | .classified k m => .classified k m
  | .raw e =>
      if e.cls = .PoolError then
        .classified .PoolExhausted "Connection pool exhausted"
      else if e.cls = .OperationalError then
        .classified .ConnectionFailure ("Database connection failed: " ++ e.msg)
      else if e.cls = .IntegrityError then
        .classified .ConstraintViolation ("Batch operation has failed - constraint violation: " ++ e.msg)
      else if e.cls = .DataError then
        .classified .InvalidData ("Batch operation has failed - invalid data: " ++ e.msg)
      else if e.cls = .ProgrammingError then
        .classified .QueryError ("Query error: " ++ e.msg)
      else if e.cls = .TypeErr ∨ e.cls = .ValueErr then
        .classified .InvalidParameters ("Invalid parameters format: " ++ e.msg)
      else
        .raw e

/-- `DatabaseConnection.execute_many` (connection.py:87-122).  The empty
parameter list raises `ValueError("params_list cannot be empty")` inside
the `try` block, before `_get_connection_and_cursor` is called. -/
def execute_many (env : DriverEnv) (params_list : List (List String)) :
    Except RError Int × List Event :=
  if params_list.isEmpty then
    (.error (manyChainUnbound (.raw ⟨.ValueErr, "params_list cannot be empty"⟩)), [])
  else
    match getConnectionAndCursor env with
    | (.error e, tr) => (.error (manyChainUnbound e), tr)
    | (.ok _, tr) =>
        match env.exec with
        | some e =>
            let p := manyChainBound e
            (.error p.1, tr ++ p.2)
        | none =>
            match env.commit with
            | some e =>
                let p := manyChainBound e
                (.error p.1, tr ++ [Event.cursorExec] ++ p.2)
            | none =>
                (.ok env.rowcount,
                 tr ++ [Event.cursorExec, Event.commit, Event.cursorClose, Event.putconn])

/-- Classes whose `except` clause in `execute_update` performs a
rollback. -/
def updateRollbackClass : PyClass → Bool
  | .OperationalError | .IntegrityError | .DataError | .ProgrammingError => true
  | _ => false

/-- Classes whose `except` clause in `execute_many` performs a
rollback. -/
def manyRollbackClass : PyClass → Bool
  | .OperationalError | .IntegrityError | .DataError | .ProgrammingError
  | .TypeErr | .ValueErr => true
  | _ => false

/-- `psycopg2.pool.PoolError` is raised only by the pool object itself,
never by cursor or connection methods; realistic environments respect
this. -/
def realisticEnv (env : DriverEnv) : Prop :=
  (∀ e, env.cursorAcq = some e → e.cls ≠ .PoolError) ∧
  (∀ e, env.exec = some e → e.cls ≠ .PoolError) ∧
  (∀ e, env.fetchall = .error e → e.cls ≠ .PoolError) ∧
  (∀ e, env.commit = some e → e.cls ≠ .PoolError)

/-- Arguments `DatabaseConnection.__init__` (connection.py:6-15) passes to
`psycopg2.pool.ThreadedConnectionPool`: the fixed bounds 1 and 10, the
named connection parameters, and the extra keyword options forwarded
verbatim. -/
structure PoolConfig where
  minconn : Nat
  maxconn : Nat
  host : String
  database : String
  user : String
  password : String
  kwargs : List (String × String)
  deriving DecidableEq, Repr

/-- `DatabaseConnection.__init__` (connection.py:6-15). -/
def DatabaseConnection_init (host dbname user password : String)
    (kwargs : List (String × String)) : PoolConfig :=
  { minconn := 1, maxconn := 10, host := host, database := dbname,
    user := user, password := password, kwargs := kwargs }

/-- A pool bookkeeping operation: one caller acquiring or releasing. -/
inductive PoolOp where
  | acquire
  | release
  deriving DecidableEq, Repr

/-- Number of connections currently lent out by the pool. -/
structure PoolState where
  outstanding : Nat
  deriving DecidableEq, Repr

/-- Modelled from the spec: `psycopg2.pool.ThreadedConnectionPool` is
third-party driver code, not part of this repository's sources.  Spec
section 5 fixes its behaviour: acquire/release bookkeeping is serialized
internally by a mutex, `getconn` fails immediately (non-blocking, raising
pool exhaustion) when all `maxconn` connections are outstanding and
otherwise lends one more, and `putconn` returns a connection to the idle
set.  A concurrent execution is therefore any serialized sequence of
these operations. -/
def poolStep (maxconn : Nat) (s : PoolState) : PoolOp → PoolState
  | .acquire => if s.outstanding < maxconn then ⟨s.outstanding + 1⟩ else s
  | .release => if 0 < s.outstanding then ⟨s.outstanding - 1⟩ else s

/-- State of the pool after a serialized sequence of operations. -/
def runPool (maxconn : Nat) (s : PoolState) (ops : List PoolOp) : PoolState :=
  ops.foldl (poolStep maxconn) s

/-! ### Schema provisioner (`src/database/setup.py`)

The database catalog is modelled as the sets of table names, `(table,
constraint)` pairs and index names, plus whether the `vector` extension is
enabled; `pgvAvailable` is the server-side capability of installing
pgvector.  The standard semantics of the DDL statements the source issues
is modelled by the `run*` primitives: plain `CREATE TABLE` / `ADD
CONSTRAINT` fail on a duplicate, the `IF NOT EXISTS` forms never do. -/

structure SchemaState where
  tables : List String
  constraints : List (String × String)
  indexes : List String
  vectorExt : Bool
  pgvAvailable : Bool
  deriving DecidableEq, Repr

/-- Append an element unless already present. -/
def insertIfAbsent {α : Type} [DecidableEq α] (l : List α) (x : α) : List α :=
  if x ∈ l then l else l ++ [x]

/-- `DatabaseSetup._table_exists` (setup.py:5-12): catalog lookup by
table name. -/
def table_exists (s : SchemaState) (t : String) : Bool :=
  decide (t ∈ s.tables)

/-- `DatabaseSetup._constraint_exists` (setup.py:14-22). -/
def constraint_exists (s : SchemaState) (t c : String) : Bool :=
  decide ((t, c) ∈ s.constraints)

/-- Failure of a DDL statement: the driver message either contains
"already exists" (the case the source's handlers test for) or reports a
missing server capability. -/
inductive DDLErr where
  | alreadyExists (what : String)
  | notAvailable (what : String)
  deriving DecidableEq, Repr

/-- Plain `CREATE TABLE t (...)`: fails if the table already exists. -/
def runCreateTable (s : SchemaState) (t : String) : Except DDLErr SchemaState :=
  if t ∈ s.tables then .error (.alreadyExists t)
  else .ok { s with tables := s.tables ++ [t] }

/-- `ALTER TABLE t ADD CONSTRAINT c ...`: fails if the constraint already
exists. -/
def runAddConstraint (s : SchemaState) (t c : String) : Except DDLErr SchemaState :=
  if (t, c) ∈ s.constraints then .error (.alreadyExists c)
  else .ok { s with constraints := s.constraints ++ [(t, c)] }

/-- `DatabaseSetup._setup_pgvector` (setup.py:24-34): `CREATE EXTENSION
IF NOT EXISTS vector` succeeds (idempotently) when pgvector is installed
on the server; otherwise the failure is re-raised. -/
def setup_pgvector (s : SchemaState) : Except DDLErr SchemaState :=
  if s.pgvAvailable then .ok { s with vectorExt := true }
  else .error (.notAvailable "vector")

/-- Common shape of `_create_analysis_registry` .. `_create_embeddings`
(setup.py:36-134): create the table only when `_table_exists` says it is
absent. -/
def create_table_checked (t : String) (s : SchemaState) : Except DDLErr SchemaState :=
  if table_exists s t then .ok s else runCreateTable s t

/-- `DatabaseSetup._create_analysis_registry` (setup.py:36). -/
def create_analysis_registry : SchemaState → Except DDLErr SchemaState :=
  create_table_checked "analysis_registry"

/-- `DatabaseSetup._create_stg_rejects` (setup.py:59). -/
def create_stg_rejects : SchemaState → Except DDLErr SchemaState :=
  create_table_checked "stg_rejects"

/-- `DatabaseSetup._create_insights_cache` (setup.py:76). -/
def create_insights_cache : SchemaState → Except DDLErr SchemaState :=
  create_table_checked "insights_cache"

/-- `DatabaseSetup._create_query_history` (setup.py:98). -/
def create_query_history : SchemaState → Except DDLErr SchemaState :=
  create_table_checked "query_history"

/-- `DatabaseSetup._create_embeddings` (setup.py:117). -/
def create_embeddings : SchemaState → Except DDLErr SchemaState :=
  create_table_checked "embeddings"

/-- One iteration of the `_add_foreign_keys` loop (setup.py:136-160):
existence-checked, and even on failure an "already exists" driver message
is swallowed.  The referenced column is irrelevant to the catalog model. -/
def add_fk_checked (t _col c : String) (s : SchemaState) : Except DDLErr SchemaState :=
  if constraint_exists s t c then .ok s
  else
    match runAddConstraint s t c with
    | .ok next => .ok next
    | .error (.alreadyExists _) => .ok s
    | .error e => .error e

/-- `DatabaseSetup._add_foreign_keys` (setup.py:136-160). -/
def add_foreign_keys (s : SchemaState) : Except DDLErr SchemaState := do
  let s ← add_fk_checked "insights_cache" "analysis_id" "fk_insights_analysis" s
  let s ← add_fk_checked "query_history" "analysis_id" "fk_query_analysis" s
  let s ← add_fk_checked "embeddings" "analysis_id" "fk_embeddings_analysis" s
  pure s

/-- The nine ordinary indexes of `_create_indexes` (setup.py:163-173). -/
def plain_indexes : List String :=
  ["idx_analysis_registry_session", "idx_analysis_registry_status",
   "idx_stg_rejects_source", "idx_stg_rejects_timestamp",
   "idx_insights_cache_analysis", "idx_insights_cache_type",
   "idx_query_history_analysis", "idx_embeddings_analysis",
   "idx_embeddings_type"]

/-- `DatabaseSetup._create_indexes` (setup.py:162-202): every statement is
`CREATE INDEX IF NOT EXISTS` and every failure is caught and logged, so
the method never raises; the ivfflat vector index is created only when
pgvector is usable. -/
def create_indexes (s : SchemaState) : SchemaState :=
  let s1 := plain_indexes.foldl
    (fun st i => { st with indexes := insertIfAbsent st.indexes i }) s
  if s1.pgvAvailable then
    { s1 with indexes := insertIfAbsent s1.indexes "idx_embeddings_vector" }
  else s1

/-- `DatabaseSetup.setup_all` (setup.py:218-233) with
`drop_existing = False` (the claim's "without dropping" mode, which skips
`_drop_all_tables`). -/
def setup_all (s : SchemaState) : Except DDLErr SchemaState := do
  let s ← setup_pgvector s
  let s ← create_analysis_registry s
  let s ← create_stg_rejects s
  let s ← create_insights_cache s
  let s ← create_query_history s
  let s ← create_embeddings s
  let s ← add_foreign_keys s
  pure (create_indexes s)

/-- Outcomes of the catalog queries `verify_setup` issues: whether each
table exists, whether its `SELECT COUNT(*)` succeeds, and the outcome of
the `pg_extension` lookup (which may itself raise). -/
structure VerifyEnv where
  tablePresent : String → Bool
  countOk : String → Bool
  pgvCheck : Except String Bool

/-- The five required tables of `verify_setup` (setup.py:238). -/
def required_tables : List String :=
  ["analysis_registry", "stg_rejects", "insights_cache", "query_history",
   "embeddings"]

/-- One iteration of the `verify_setup` loop (setup.py:241-251), carrying
the `all_good` flag and the printed report. -/
def verifyStep (env : VerifyEnv) (acc : Bool × List String) (t : String) :
    Bool × List String :=
  if env.tablePresent t then
    if env.countOk t then (acc.1, acc.2 ++ [t ++ ": OK"])
    else (false, acc.2 ++ [t ++ ": EXISTS but cannot query"])
  else (false, acc.2 ++ [t ++ ": NOT FOUND"])

/-- `DatabaseSetup.verify_setup` (setup.py:235-266): returns `all_good`
together with the printed report; the pgvector check only prints. -/
def verify_setup (env : VerifyEnv) : Bool × List String :=
  let r := required_tables.foldl (verifyStep env) (true, [])
  match env.pgvCheck with
  | .ok true => (r.1, r.2 ++ ["pgvector: INSTALLED"])
  | .ok false => (r.1, r.2 ++ ["pgvector: NOT INSTALLED (embeddings will not work)"])
  | .error m => (r.1, r.2 ++ ["Could not check pgvector: " ++ m])

/-! ### Trace-shape lemmas for the three executors -/

lemma execute_update_trace (env : DriverEnv) :
    (execute_update env).2 =
      match env.getconn with
      | some _ => []
      | none =>
          match env.cursorAcq with
          | some _ => [Event.getconnOk]
          | none =>
              match env.exec with
              | some e =>
                  Event.getconnOk ::
                    (if updateRollbackClass e.cls then [Event.rollback, Event.putconn]
                     else [Event.putconn])
              | none =>
                  match env.commit with
                  | some e =>
                      Event.getconnOk :: Event.cursorExec ::
                        (if updateRollbackClass e.cls then [Event.rollback, Event.putconn]
                         else [Event.putconn])
                  | none =>
                      [Event.getconnOk, Event.cursorExec, Event.commit, Event.cursorClose,
                       Event.putconn] := by
  obtain ⟨g, ca, ex, fa, co, rc⟩ := env
  cases g with
  | some e => obtain ⟨c, m⟩ := e; cases c <;> rfl
  | none =>
    cases ca with
    | some e => obtain ⟨c, m⟩ := e; cases c <;> rfl
    | none =>
      cases ex with
      | some e => obtain ⟨c, m⟩ := e; cases c <;> rfl
      | none =>
        cases co with
        | some e => obtain ⟨c, m⟩ := e; cases c <;> rfl
        | none => rfl

lemma execute_many_trace (env : DriverEnv) (params_list : List (List String))
    (hne : params_list ≠ []) :
    (execute_many env params_list).2 =
      match env.getconn with
      | some _ => []
      | none =>
          match env.cursorAcq with
          | some _ => [Event.getconnOk]
          | none =>
              match env.exec with
              | some e =>
                  Event.getconnOk ::
                    (if manyRollbackClass e.cls then [Event.rollback, Event.putconn]
                     else [Event.putconn])
              | none =>
                  match env.commit with
                  | some e =>
                      Event.getconnOk :: Event.cursorExec ::
                        (if manyRollbackClass e.cls then [Event.rollback, Event.putconn]
                         else [Event.putconn])
                  | none =>
                      [Event.getconnOk, Event.cursorExec, Event.commit, Event.cursorClose,
                       Event.putconn] := by
  obtain ⟨p, ps⟩ := params_list
  · exact absurd rfl hne
  obtain ⟨g, ca, ex, fa, co, rc⟩ := env
  cases g with
  | some e => obtain ⟨c, m⟩ := e; cases c <;> rfl
  | none =>
    cases ca with
    | some e => obtain ⟨c, m⟩ := e; cases c <;> rfl
    | none =>
      cases ex with
      | some e => obtain ⟨c, m⟩ := e; cases c <;> rfl
      | none =>
        cases co with
        | some e => obtain ⟨c, m⟩ := e; cases c <;> rfl
        | none => rfl

lemma execute_query_trace (env : DriverEnv) :
    (execute_query env).2 =
      match env.getconn with
      | some _ => []
      | none =>
          match env.cursorAcq with
          | some _ => [Event.getconnOk]
          | none =>
              match env.exec with
              | some _ => [Event.getconnOk, Event.putconn]
              | none =>
                  match env.fetchall with
                  | .error _ => [Event.getconnOk, Event.cursorExec, Event.putconn]
                  | .ok _ =>
                      [Event.getconnOk, Event.cursorExec, Event.fetchall, Event.cursorClose,
                       Event.putconn] := by
  obtain ⟨g, ca, ex, fa, co, rc⟩ := env
  cases g with
  | some e => obtain ⟨c, m⟩ := e; cases c <;> rfl
  | none =>
    cases ca with
    | some e => obtain ⟨c, m⟩ := e; cases c <;> rfl
    | none =>
      cases ex with
      | some e => obtain ⟨c, m⟩ := e; cases c <;> rfl
      | none => cases fa <;> rfl

lemma rollback_mem_update_iff (env : DriverEnv) :
    Event.rollback ∈ (execute_update env).2 ↔
      env.getconn = none ∧ env.cursorAcq = none ∧
        ((∃ e, env.exec = some e ∧ updateRollbackClass e.cls = true) ∨
         (env.exec = none ∧ ∃ e, env.commit = some e ∧ updateRollbackClass e.cls = true)) := by
  rw [execute_update_trace]
  obtain ⟨g, ca, ex, fa, co, rc⟩ := env
  cases g with
  | some e => simp
  | none =>
    cases ca with
    | some e => simp
    | none =>
      cases ex with
      | some e => by_cases h : updateRollbackClass e.cls = true <;> simp [h]
      | none =>
        cases co with
        | some e => by_cases h : updateRollbackClass e.cls = true <;> simp [h]
        | none => simp

lemma update_rollback_precedes_release (env : DriverEnv)
    (h : Event.rollback ∈ (execute_update env).2) :
    ∃ pre, (execute_update env).2 = pre ++ [Event.rollback, Event.putconn] := by
  rw [execute_update_trace] at h ⊢
  obtain ⟨g, ca, ex, fa, co, rc⟩ := env
  cases g with
  | some e => simp at h
  | none =>
    cases ca with
    | some e => simp at h
    | none =>
      cases ex with
      | some e =>
        by_cases hc : updateRollbackClass e.cls = true
        · exact ⟨[Event.getconnOk], by simp [hc]⟩
        · simp [hc] at h
      | none =>
        cases co with
        | some e =>
          by_cases hc : updateRollbackClass e.cls = true
          · exact ⟨[Event.getconnOk, Event.cursorExec], by simp [hc]⟩
          · simp [hc] at h
        | none => simp at h

lemma rollback_mem_many_iff (env : DriverEnv) (params_list : List (List String))
    (hne : params_list ≠ []) :
    Event.rollback ∈ (execute_many env params_list).2 ↔
      env.getconn = none ∧ env.cursorAcq = none ∧
        ((∃ e, env.exec = some e ∧ manyRollbackClass e.cls = true) ∨
         (env.exec = none ∧ ∃ e, env.commit = some e ∧ manyRollbackClass e.cls = true)) := by
  rw [execute_many_trace env params_list hne]
  obtain ⟨g, ca, ex, fa, co, rc⟩ := env
  cases g with
  | some e => simp
  | none =>
    cases ca with
    | some e => simp
    | none =>
      cases ex with
      | some e => by_cases h : manyRollbackClass e.cls = true <;> simp [h]
      | none =>
        cases co with
        | some e => by_cases h : manyRollbackClass e.cls = true <;> simp [h]
        | none => simp

lemma many_rollback_precedes_release (env : DriverEnv) (params_list : List (List String))
    (h : Event.rollback ∈ (execute_many env params_list).2) :
    ∃ pre, (execute_many env params_list).2 = pre ++ [Event.rollback, Event.putconn] := by
  match params_list with
  | [] => simp [execute_many] at h
  | p :: ps =>
    rw [execute_many_trace env (p :: ps) (by simp)] at h ⊢
    obtain ⟨g, ca, ex, fa, co, rc⟩ := env
    cases g with
    | some e => simp at h
    | none =>
      cases ca with
      | some e => simp at h
      | none =>
        cases ex with
        | some e =>
          by_cases hc : manyRollbackClass e.cls = true
          · exact ⟨[Event.getconnOk], by simp [hc]⟩
          · simp [hc] at h
        | none =>
          cases co with
          | some e =>
            by_cases hc : manyRollbackClass e.cls = true
            · exact ⟨[Event.getconnOk, Event.cursorExec], by simp [hc]⟩
            · simp [hc] at h
          | none => simp at h

/-! ### Claim theorems -/

/-- Claim C1 (code evidence at the failing input): when `pool.getconn()`
succeeds but `connection.cursor()` raises inside
`_get_connection_and_cursor`, every executor leaves the acquired
connection unreleased — the caller's `connection` local is never bound,
so the `finally` block skips `putconn`.  The trace records one
acquisition and no release. -/
theorem c1_connection_leak_on_cursor_failure :
    (execute_query ⟨none, some ⟨.OperationalError, "server closed the connection"⟩,
        none, .ok [], none, 0⟩).2 = [Event.getconnOk]
    ∧ (execute_update ⟨none, some ⟨.OperationalError, "server closed the connection"⟩,
        none, .ok [], none, 0⟩).2 = [Event.getconnOk]
    ∧ (execute_many ⟨none, some ⟨.OperationalError, "server closed the connection"⟩,
        none, .ok [], none, 0⟩ [["1"]]).2 = [Event.getconnOk]
    ∧ Event.putconn ∉ [Event.getconnOk] :=
  ⟨rfl, rfl, rfl, by decide⟩

/-- Claim C2 (counterexample): an uncategorized driver failure
(`psycopg2.InternalError`) raised by `cursor.execute` after the
connection was acquired matches no `except` clause of `execute_update`,
so the call fails after acquisition with no rollback at all. -/
theorem c2_counterexample_no_rollback_uncategorized :
    (execute_update ⟨none, none, some ⟨.InternalError, "cache lookup failed"⟩,
        .ok [], none, 0⟩).1 = .error (.raw ⟨.InternalError, "cache lookup failed"⟩)
    ∧ (execute_update ⟨none, none, some ⟨.InternalError, "cache lookup failed"⟩,
        .ok [], none, 0⟩).2 = [Event.getconnOk, Event.putconn]
    ∧ Event.rollback ∉ [Event.getconnOk, Event.putconn] :=
  ⟨rfl, rfl, by decide⟩

/-- Claim C2 (amended): in `execute_update` and `execute_many`, rollback
is invoked exactly when the connection was bound and the failure is of
one of the caught classes (OperationalError, IntegrityError, DataError,
ProgrammingError — plus TypeError/ValueError for batch); when invoked it
immediately precedes the release; failures before acquisition (pool
exhaustion, empty batch) never roll back; an uncategorized failure after
acquisition propagates without rollback. -/
theorem c2_rollback_iff_caught (env : DriverEnv) (params_list : List (List String)) :
    (Event.rollback ∈ (execute_update env).2 ↔
       env.getconn = none ∧ env.cursorAcq = none ∧
         ((∃ e, env.exec = some e ∧ updateRollbackClass e.cls = true) ∨
          (env.exec = none ∧ ∃ e, env.commit = some e ∧ updateRollbackClass e.cls = true)))
    ∧ (Event.rollback ∈ (execute_update env).2 →
        ∃ pre, (execute_update env).2 = pre ++ [Event.rollback, Event.putconn])
    ∧ (params_list ≠ [] →
        (Event.rollback ∈ (execute_many env params_list).2 ↔
          env.getconn = none ∧ env.cursorAcq = none ∧
            ((∃ e, env.exec = some e ∧ manyRollbackClass e.cls = true) ∨
             (env.exec = none ∧ ∃ e, env.commit = some e ∧ manyRollbackClass e.cls = true))))
    ∧ (Event.rollback ∈ (execute_many env params_list).2 →
        ∃ pre, (execute_many env params_list).2 = pre ++ [Event.rollback, Event.putconn])
    ∧ Event.rollback ∉ (execute_many env []).2 :=
  ⟨rollback_mem_update_iff env, update_rollback_precedes_release env,
   fun hne => rollback_mem_many_iff env params_list hne,
   many_rollback_precedes_release env params_list, by simp [execute_many]⟩

/-- Claim C2 witness: a constraint violation during `execute_update`
does roll back immediately before releasing. -/
theorem c2_rollback_iff_caught_witness :
    ∃ pre, (execute_update ⟨none, none, some ⟨.IntegrityError, "dup"⟩,
        .ok [], none, 0⟩).2 = pre ++ [Event.rollback, Event.putconn] :=
  (c2_rollback_iff_caught ⟨none, none, some ⟨.IntegrityError, "dup"⟩, .ok [], none, 0⟩
    []).2.1 (by decide)

/-- Claim C3: `execute_many` with an empty parameter list fails with the
InvalidParameters error and performs zero pool interactions — no
acquisition, no statement, no rollback, no release. -/
theorem c3_empty_batch_no_pool_interaction (env : DriverEnv) :
    execute_many env [] =
      (.error (.classified .InvalidParameters
        "Invalid parameters format: params_list cannot be empty"), []) :=
  rfl

/-- Claim C6: a successful `execute_update` executes exactly one
statement, commits after the execute, closes the cursor, releases the
connection exactly once at the end, and returns `cursor.rowcount`. -/
theorem c6_update_success_commit_order (env : DriverEnv) (v : Int) (tr : List Event)
    (h : execute_update env = (.ok v, tr)) :
    v = env.rowcount
    ∧ tr = [Event.getconnOk, Event.cursorExec, Event.commit, Event.cursorClose, Event.putconn]
    ∧ tr.count Event.cursorExec = 1
    ∧ tr.count Event.putconn = 1 := by
  obtain ⟨g, ca, ex, fa, co, rc⟩ := env
  cases g with
  | some e =>
    obtain ⟨c, m⟩ := e
    cases c <;> simp [execute_update, getConnectionAndCursor] at h
  | none =>
    cases ca with
    | some e =>
      obtain ⟨c, m⟩ := e
      cases c <;> simp [execute_update, getConnectionAndCursor] at h
    | none =>
      cases ex with
      | some e =>
        obtain ⟨c, m⟩ := e
        cases c <;> simp [execute_update, getConnectionAndCursor, updateChainBound] at h
      | none =>
        cases co with
        | some e =>
          obtain ⟨c, m⟩ := e
          cases c <;> simp [execute_update, getConnectionAndCursor, updateChainBound] at h
        | none =>
          simp [execute_update, getConnectionAndCursor] at h
          obtain ⟨h1, h2⟩ := h
          subst h1
          subst h2
          exact ⟨rfl, rfl, by decide, by decide⟩

/-- Claim C6 witness at a concrete successful environment. -/
theorem c6_update_success_commit_order_witness :
    (7 : Int) = (⟨none, none, none, .ok [], none, 7⟩ : DriverEnv).rowcount
    ∧ [Event.getconnOk, Event.cursorExec, Event.commit, Event.cursorClose, Event.putconn]
        = [Event.getconnOk, Event.cursorExec, Event.commit, Event.cursorClose, Event.putconn]
    ∧ [Event.getconnOk, Event.cursorExec, Event.commit, Event.cursorClose,
        Event.putconn].count Event.cursorExec = 1
    ∧ [Event.getconnOk, Event.cursorExec, Event.commit, Event.cursorClose,
        Event.putconn].count Event.putconn = 1 :=
  c6_update_success_commit_order ⟨none, none, none, .ok [], none, 7⟩ 7
    [Event.getconnOk, Event.cursorExec, Event.commit, Event.cursorClose, Event.putconn] rfl

/-- Claim C7: `execute_query` never commits and never rolls back on any
execution path, and a successful call executes the statement, fetches all
rows, returns exactly them, and releases the connection. -/
theorem c7_query_no_transactional_mutation (env : DriverEnv) :
    Event.commit ∉ (execute_query env).2
    ∧ Event.rollback ∉ (execute_query env).2
    ∧ ∀ rows tr, execute_query env = (.ok rows, tr) →
        env.fetchall = .ok rows
        ∧ tr = [Event.getconnOk, Event.cursorExec, Event.fetchall, Event.cursorClose,
                Event.putconn] := by
  obtain ⟨g, ca, ex, fa, co, rc⟩ := env
  refine ⟨?_, ?_, ?_⟩
  · rw [execute_query_trace]
    cases g <;> cases ca <;> cases ex <;> cases fa <;> simp
  · rw [execute_query_trace]
    cases g <;> cases ca <;> cases ex <;> cases fa <;> simp
  · intro rows tr h
    cases g with
    | some e =>
      obtain ⟨c, m⟩ := e
      cases c <;> simp [execute_query, getConnectionAndCursor] at h
    | none =>
      cases ca with
      | some e =>
        obtain ⟨c, m⟩ := e
        cases c <;> simp [execute_query, getConnectionAndCursor] at h
      | none =>
        cases ex with
        | some e =>
          obtain ⟨c, m⟩ := e
          cases c <;> simp [execute_query, getConnectionAndCursor] at h
        | none =>
          cases fa with
          | error e => simp [execute_query, getConnectionAndCursor] at h
          | ok rows2 =>
            simp [execute_query, getConnectionAndCursor] at h
            obtain ⟨h1, h2⟩ := h
            subst h1
            subst h2
            exact ⟨rfl, rfl⟩

/-- Claim C7 witness at a concrete successful environment. -/
theorem c7_query_no_transactional_mutation_witness :
    (⟨none, none, none, .ok [["a"]], none, 0⟩ : DriverEnv).fetchall = .ok [["a"]]
    ∧ [Event.getconnOk, Event.cursorExec, Event.fetchall, Event.cursorClose, Event.putconn]
        = [Event.getconnOk, Event.cursorExec, Event.fetchall, Event.cursorClose,
           Event.putconn] :=
  (c7_query_no_transactional_mutation ⟨none, none, none, .ok [["a"]], none, 0⟩).2.2
    [["a"]]
    [Event.getconnOk, Event.cursorExec, Event.fetchall, Event.cursorClose, Event.putconn] rfl

/-- Claim C4 (counterexample): a driver failure matching no specific
category (here `psycopg2.InternalError`) is not re-raised as Unexpected
by `execute_update` or `execute_many` — with no catch-all clause it
propagates unclassified. -/
theorem c4_counterexample_unclassified_update :
    (execute_update ⟨none, none, some ⟨.InternalError, "portal does not exist"⟩,
        .ok [], none, 0⟩).1 = .error (.raw ⟨.InternalError, "portal does not exist"⟩)
    ∧ (execute_many ⟨none, none, some ⟨.InternalError, "portal does not exist"⟩,
        .ok [], none, 0⟩ [["1"]]).1 = .error (.raw ⟨.InternalError, "portal does not exist"⟩)
    ∧ errorKindOf (.raw ⟨.InternalError, "portal does not exist"⟩) = none :=
  ⟨rfl, rfl, rfl⟩

/-- Claim C4 (amended): `execute_query` re-raises every escaping failure
classified with a taxonomy kind; `execute_update` and `execute_many`
classify exactly the driver categories their `except` chains catch —
each class to its fixed kind, carrying the original failure text in the
clauses that interpolate `str(e)` — while a driver failure of any other
class raised during execution or commit propagates out as the original
exception, unclassified; and no failure is silently swallowed: a
successful call implies every driver operation it used succeeded. -/
theorem c4_classification_coverage_amended (env : DriverEnv)
    (params_list : List (List String)) :
    (∀ e, (execute_query env).1 = .error e → ∃ k m, e = RError.classified k m)
    ∧ (env.getconn = none → env.cursorAcq = none → ∀ pe,
        (env.exec = some pe ∨ (env.exec = none ∧ env.commit = some pe)) →
        (pe.cls = .PoolError →
          (execute_update env).1
            = .error (.classified .PoolExhausted "Connection pool exhausted"))
        ∧ (pe.cls = .OperationalError →
          (execute_update env).1
            = .error (.classified .ConnectionFailure
                "Database connection failed during update, try again"))
        ∧ (pe.cls = .IntegrityError →
          (execute_update env).1
            = .error (.classified .ConstraintViolation
                ("Data constraint violation: " ++ pe.msg)))
        ∧ (pe.cls = .DataError →
          (execute_update env).1
            = .error (.classified .InvalidData ("Invalid data: " ++ pe.msg)))
        ∧ (pe.cls = .ProgrammingError →
          (execute_update env).1
            = .error (.classified .QueryError ("Query error: " ++ pe.msg)))
        ∧ ((pe.cls = .InternalError ∨ pe.cls = .TypeErr ∨ pe.cls = .ValueErr ∨
            pe.cls = .PlainExc) →
          (execute_update env).1 = .error (.raw pe)))
    ∧ (params_list ≠ [] → env.getconn = none → env.cursorAcq = none → ∀ pe,
        (env.exec = some pe ∨ (env.exec = none ∧ env.commit = some pe)) →
        (pe.cls = .PoolError →
          (execute_many env params_list).1
            = .error (.classified .PoolExhausted "Connection pool exhausted"))
        ∧ (pe.cls = .OperationalError →
          (execute_many env params_list).1
            = .error (.classified .ConnectionFailure
                ("Database connection failed: " ++ pe.msg)))
        ∧ (pe.cls = .IntegrityError →
          (execute_many env params_list).1
            = .error (.classified .ConstraintViolation
                ("Batch operation has failed - constraint violation: " ++ pe.msg)))
        ∧ (pe.cls = .DataError →
          (execute_many env params_list).1
            = .error (.classified .InvalidData
                ("Batch operation has failed - invalid data: " ++ pe.msg)))
        ∧ (pe.cls = .ProgrammingError →
          (execute_many env params_list).1
            = .error (.classified .QueryError ("Query error: " ++ pe.msg)))
        ∧ ((pe.cls = .TypeErr ∨ pe.cls = .ValueErr) →
          (execute_many env params_list).1
            = .error (.classified .InvalidParameters
                ("Invalid parameters format: " ++ pe.msg)))
        ∧ ((pe.cls = .InternalError ∨ pe.cls = .PlainExc) →
          (execute_many env params_list).1 = .error (.raw pe)))
    ∧ (∀ v tr, execute_update env = (Except.ok v, tr) →
        env.getconn = none ∧ env.cursorAcq = none ∧ env.exec = none ∧ env.commit = none)
    ∧ (∀ v tr, params_list ≠ [] → execute_many env params_list = (Except.ok v, tr) →
        env.getconn = none ∧ env.cursorAcq = none ∧ env.exec = none ∧ env.commit = none) := by
  obtain ⟨g, ca, ex, fa, co, rc⟩ := env
  refine ⟨?_, ?_, ?_, ?_, ?_⟩
  · intro e h
    cases g with
    | some pe =>
      obtain ⟨c, m⟩ := pe
      cases c <;> simp [execute_query, getConnectionAndCursor, classifyQueryErr] at h <;>
        subst h <;> exact ⟨_, _, rfl⟩
    | none =>
      cases ca with
      | some pe =>
        obtain ⟨c, m⟩ := pe
        cases c <;> simp [execute_query, getConnectionAndCursor, classifyQueryErr] at h <;>
          subst h <;> exact ⟨_, _, rfl⟩
      | none =>
        cases ex with
        | some pe =>
          obtain ⟨c, m⟩ := pe
          cases c <;> simp [execute_query, getConnectionAndCursor, classifyQueryErr] at h <;>
            subst h <;> exact ⟨_, _, rfl⟩
        | none =>
          cases fa with
          | error pe =>
            obtain ⟨c, m⟩ := pe
            cases c <;> simp [execute_query, getConnectionAndCursor, classifyQueryErr] at h <;>
              subst h <;> exact ⟨_, _, rfl⟩
          | ok rows => simp [execute_query, getConnectionAndCursor] at h
  · intro hg hca pe hpe
    subst hg
    subst hca
    obtain ⟨c, m⟩ := pe
    rcases hpe with hex | ⟨hex, hco⟩
    · subst hex
      refine ⟨?_, ?_, ?_, ?_, ?_, ?_⟩
      · intro hc; cases hc; rfl
      · intro hc; cases hc; rfl
      · intro hc; cases hc; rfl
      · intro hc; cases hc; rfl
      · intro hc; cases hc; rfl
      · rintro (hc | hc | hc | hc) <;> (cases hc; rfl)
    · subst hex
      subst hco
      refine ⟨?_, ?_, ?_, ?_, ?_, ?_⟩
      · intro hc; cases hc; rfl
      · intro hc; cases hc; rfl
      · intro hc; cases hc; rfl
      · intro hc; cases hc; rfl
      · intro hc; cases hc; rfl
      · rintro (hc | hc | hc | hc) <;> (cases hc; rfl)
  · intro hne hg hca pe hpe
    match params_list with
    | [] => exact absurd rfl hne
    | p :: ps =>
      subst hg
      subst hca
      obtain ⟨c, m⟩ := pe
      rcases hpe with hex | ⟨hex, hco⟩
      · subst hex
        refine ⟨?_, ?_, ?_, ?_, ?_, ?_, ?_⟩
        · intro hc; cases hc; rfl
        · intro hc; cases hc; rfl
        · intro hc; cases hc; rfl
        · intro hc; cases hc; rfl
        · intro hc; cases hc; rfl
        · rintro (hc | hc) <;> (cases hc; rfl)
        · rintro (hc | hc) <;> (cases hc; rfl)
      · subst hex
        subst hco
        refine ⟨?_, ?_, ?_, ?_, ?_, ?_, ?_⟩
        · intro hc; cases hc; rfl
        · intro hc; cases hc; rfl
        · intro hc; cases hc; rfl
        · intro hc; cases hc; rfl
        · intro hc; cases hc; rfl
        · rintro (hc | hc) <;> (cases hc; rfl)
        · rintro (hc | hc) <;> (cases hc; rfl)
  · intro v tr h
    cases g with
    | some pe =>
      obtain ⟨c, m⟩ := pe
      cases c <;> simp [execute_update, getConnectionAndCursor, updateChainUnbound] at h
    | none =>
      cases ca with
      | some pe =>
        obtain ⟨c, m⟩ := pe
        cases c <;> simp [execute_update, getConnectionAndCursor, updateChainUnbound] at h
      | none =>
        cases ex with
        | some pe =>
          obtain ⟨c, m⟩ := pe
          cases c <;> simp [execute_update, getConnectionAndCursor, updateChainBound] at h
        | none =>
          cases co with
          | some pe =>
            obtain ⟨c, m⟩ := pe
            cases c <;> simp [execute_update, getConnectionAndCursor, updateChainBound] at h
          | none => exact ⟨rfl, rfl, rfl, rfl⟩
  · intro v tr hne h
    match params_list with
    | [] => exact absurd rfl hne
    | p :: ps =>
      cases g with
      | some pe =>
        obtain ⟨c, m⟩ := pe
        cases c <;> simp [execute_many, getConnectionAndCursor, manyChainUnbound] at h
      | none =>
        cases ca with
        | some pe =>
          obtain ⟨c, m⟩ := pe
          cases c <;> simp [execute_many, getConnectionAndCursor, manyChainUnbound] at h
        | none =>
          cases ex with
          | some pe =>
            obtain ⟨c, m⟩ := pe
            cases c <;> simp [execute_many, getConnectionAndCursor, manyChainBound] at h
          | none =>
            cases co with
            | some pe =>
              obtain ⟨c, m⟩ := pe
              cases c <;> simp [execute_many, getConnectionAndCursor, manyChainBound] at h
            | none => exact ⟨rfl, rfl, rfl, rfl⟩

/-- Claim C4 witness: a DataError raised during `execute_update` is
re-raised as InvalidData carrying the original driver text. -/
theorem c4_classification_coverage_amended_witness :
    (execute_update ⟨none, none, some ⟨.DataError, "bad int"⟩, .ok [], none, 0⟩).1
      = .error (.classified .InvalidData ("Invalid data: " ++ "bad int")) :=
  ((c4_classification_coverage_amended
      ⟨none, none, some ⟨.DataError, "bad int"⟩, .ok [], none, 0⟩ [["1"]]).2.1
    rfl rfl ⟨.DataError, "bad int"⟩ (Or.inl rfl)).2.2.2.1 rfl

/-- Claim C5 (counterexample): in `execute_query`, an integrity failure
is classified as a constraint violation (connection.py:48-49), not as
Unexpected; and pool exhaustion, already converted to a plain `Exception`
by `_get_connection_and_cursor`, is re-wrapped by the catch-all clause as
Unexpected, not raised as PoolExhausted. -/
theorem c5_counterexample_query_mapping :
    (execute_query ⟨none, none, some ⟨.IntegrityError, "duplicate key"⟩,
        .ok [], none, 0⟩).1
      = .error (.classified .ConstraintViolation "Data Constraint violation: duplicate key")
    ∧ errorKindOf (.classified .ConstraintViolation "Data Constraint violation: duplicate key")
        ≠ some .Unexpected
    ∧ (execute_query ⟨some ⟨.PoolError, "exhausted"⟩, none, none, .ok [], none, 0⟩).1
      = .error (.classified .Unexpected "Unexpected database error: Connection pool exhausted")
    ∧ errorKindOf (.classified .Unexpected "Unexpected database error: Connection pool exhausted")
        ≠ some .PoolExhausted :=
  ⟨rfl, by simp [errorKindOf], rfl, by simp [errorKindOf]⟩

/-- Claim C5 (amended): for a realistic environment, a failing
`execute_query` escapes with a classified error whose kind is one of
ConnectionFailure, QueryError, ConstraintViolation or Unexpected — never
PoolExhausted, InvalidData or InvalidParameters; pool exhaustion and an
initial connection failure during acquisition are re-wrapped as
Unexpected (losing the original driver message); a connection drop during
execution maps to ConnectionFailure, malformed SQL to QueryError, an
integrity failure to ConstraintViolation, and every other driver failure
during execution to Unexpected wrapping the original message. -/
theorem c5_query_error_mapping_amended (env : DriverEnv) (hreal : realisticEnv env) :
    (∀ e, (execute_query env).1 = .error e →
       ∃ k m, e = .classified k m ∧
         (k = .ConnectionFailure ∨ k = .QueryError ∨ k = .ConstraintViolation ∨
          k = .Unexpected))
    ∧ (∀ m, env.getconn = some ⟨.PoolError, m⟩ →
        (execute_query env).1
          = .error (.classified .Unexpected
              "Unexpected database error: Connection pool exhausted"))
    ∧ (∀ m, env.getconn = some ⟨.OperationalError, m⟩ →
        (execute_query env).1
          = .error (.classified .Unexpected
              "Unexpected database error: Database initial connection failed, try again"))
    ∧ (env.getconn = none → env.cursorAcq = none → ∀ ex, env.exec = some ex →
        (ex.cls = .OperationalError →
          (execute_query env).1
            = .error (.classified .ConnectionFailure
                "Database connection failed during query, try again"))
        ∧ (ex.cls = .ProgrammingError →
          (execute_query env).1 = .error (.classified .QueryError ("Query error: " ++ ex.msg)))
        ∧ (ex.cls = .IntegrityError →
          (execute_query env).1
            = .error (.classified .ConstraintViolation ("Data Constraint violation: " ++ ex.msg)))
        ∧ ((ex.cls = .DataError ∨ ex.cls = .InternalError ∨ ex.cls = .TypeErr ∨
            ex.cls = .ValueErr ∨ ex.cls = .PlainExc) →
          (execute_query env).1
            = .error (.classified .Unexpected ("Unexpected database error: " ++ ex.msg)))) := by
  obtain ⟨g, ca, ex, fa, co, rc⟩ := env
  obtain ⟨hr1, hr2, hr3, hr4⟩ := hreal
  refine ⟨?_, ?_, ?_, ?_⟩
  · intro e h
    cases g with
    | some pe =>
      obtain ⟨c, m⟩ := pe
      cases c <;> simp [execute_query, getConnectionAndCursor, classifyQueryErr] at h <;>
        subst h <;> exact ⟨_, _, rfl, by simp⟩
    | none =>
      cases ca with
      | some pe =>
        obtain ⟨c, m⟩ := pe
        cases c
        · exact absurd rfl (hr1 ⟨.PoolError, m⟩ rfl)
        all_goals
          simp [execute_query, getConnectionAndCursor, classifyQueryErr] at h <;>
            subst h <;> exact ⟨_, _, rfl, by simp⟩
      | none =>
        cases ex with
        | some pe =>
          obtain ⟨c, m⟩ := pe
          cases c
          · exact absurd rfl (hr2 ⟨.PoolError, m⟩ rfl)
          all_goals
            simp [execute_query, getConnectionAndCursor, classifyQueryErr] at h <;>
              subst h <;> exact ⟨_, _, rfl, by simp⟩
        | none =>
          cases fa with
          | error pe =>
            obtain ⟨c, m⟩ := pe
            cases c
            · exact absurd rfl (hr3 ⟨.PoolError, m⟩ rfl)
            all_goals
              simp [execute_query, getConnectionAndCursor, classifyQueryErr] at h <;>
                subst h <;> exact ⟨_, _, rfl, by simp⟩
          | ok rows => simp [execute_query, getConnectionAndCursor] at h
  · intro m hg
    subst hg
    rfl
  · intro m hg
    subst hg
    rfl
  · intro hg hca exv hex
    subst hg
    subst hca
    subst hex
    obtain ⟨c, m⟩ := exv
    refine ⟨?_, ?_, ?_, ?_⟩
    · intro hc; cases hc; rfl
    · intro hc; cases hc; rfl
    · intro hc; cases hc; rfl
    · intro hc
      rcases hc with hc | hc | hc | hc | hc <;> (cases hc; rfl)

/-- Claim C5 witness: malformed SQL during a read query maps to
QueryError. -/
theorem c5_query_error_mapping_amended_witness :
    (execute_query ⟨none, none, some ⟨.ProgrammingError, "syntax error"⟩,
        .ok [], none, 0⟩).1
      = .error (.classified .QueryError
          ("Query error: " ++ (⟨.ProgrammingError, "syntax error"⟩ : PyExc).msg)) :=
  ((c5_query_error_mapping_amended
      ⟨none, none, some ⟨.ProgrammingError, "syntax error"⟩, .ok [], none, 0⟩
      (by
        refine ⟨?_, ?_, ?_, ?_⟩
        · intro e he; exact Option.noConfusion he
        · intro e he
          injection he with h
          rw [← h]
          decide
        · intro e he; exact Except.noConfusion he
        · intro e he; exact Option.noConfusion he)).2.2.2
    rfl rfl ⟨.ProgrammingError, "syntax error"⟩ rfl).2.1 rfl

/-! ### Pool bound (claim C8) -/

lemma poolStep_le (maxconn : Nat) (s : PoolState) (op : PoolOp)
    (h : s.outstanding ≤ maxconn) : (poolStep maxconn s op).outstanding ≤ maxconn := by
  cases op with
  | acquire =>
    simp only [poolStep]
    split
    · next hlt => exact hlt
    · exact h
  | release =>
    simp only [poolStep]
    split
    · exact Nat.le_trans (Nat.sub_le _ _) h
    · exact h

lemma runPool_le (maxconn : Nat) (ops : List PoolOp) (s : PoolState)
    (h : s.outstanding ≤ maxconn) : (runPool maxconn s ops).outstanding ≤ maxconn := by
  induction ops generalizing s with
  | nil => exact h
  | cons op ops ih => exact ih (poolStep maxconn s op) (poolStep_le maxconn s op h)

/-- Claim C8: the constructor always creates the pool with minimum 1 and
maximum 10 connections, forwarding host, database name, user, password
and the extra driver options verbatim; and under every serialized history
of concurrent acquire/release operations (spec-modelled pool semantics)
the number of outstanding connections never exceeds 10. -/
theorem c8_pool_config_and_bound (host dbname user password : String)
    (kwargs : List (String × String)) (ops : List PoolOp) :
    (DatabaseConnection_init host dbname user password kwargs).minconn = 1
    ∧ (DatabaseConnection_init host dbname user password kwargs).maxconn = 10
    ∧ (DatabaseConnection_init host dbname user password kwargs).host = host
    ∧ (DatabaseConnection_init host dbname user password kwargs).database = dbname
    ∧ (DatabaseConnection_init host dbname user password kwargs).user = user
    ∧ (DatabaseConnection_init host dbname user password kwargs).password = password
    ∧ (DatabaseConnection_init host dbname user password kwargs).kwargs = kwargs
    ∧ (runPool (DatabaseConnection_init host dbname user password kwargs).maxconn
        ⟨0⟩ ops).outstanding ≤ 10 :=
  ⟨rfl, rfl, rfl, rfl, rfl, rfl, rfl, runPool_le 10 ops ⟨0⟩ (Nat.zero_le 10)⟩

/-! ### Schema idempotence (claim C9) -/

lemma mem_insertIfAbsent {α : Type} [DecidableEq α] {l : List α} {x y : α} :
    x ∈ insertIfAbsent l y ↔ x ∈ l ∨ x = y := by
  unfold insertIfAbsent
  by_cases h : y ∈ l
  · simp only [if_pos h]
    constructor
    · exact Or.inl
    · rintro (hx | rfl)
      · exact hx
      · exact h
  · simp [if_neg h]

lemma insertIfAbsent_of_mem {α : Type} [DecidableEq α] {l : List α} {x : α} (h : x ∈ l) :
    insertIfAbsent l x = l := by
  simp [insertIfAbsent, h]

lemma bind_ok_reduce {ε α β : Type} (a : α) (f : α → Except ε β) :
    ((Except.ok a : Except ε α) >>= f) = f a := rfl

lemma bind_error_reduce {ε α β : Type} (e : ε) (f : α → Except ε β) :
    ((Except.error e : Except ε α) >>= f) = .error e := rfl

lemma pure_eq_ok {ε α : Type} (a : α) : (pure a : Except ε α) = .ok a := rfl

lemma create_table_checked_eq (t : String) (s : SchemaState) :
    create_table_checked t s = .ok { s with tables := insertIfAbsent s.tables t } := by
  by_cases h : t ∈ s.tables <;>
    simp [create_table_checked, table_exists, runCreateTable, insertIfAbsent, h]

lemma add_fk_checked_eq (t col c : String) (s : SchemaState) :
    add_fk_checked t col c s
      = .ok { s with constraints := insertIfAbsent s.constraints (t, c) } := by
  by_cases h : (t, c) ∈ s.constraints <;>
    simp [add_fk_checked, constraint_exists, runAddConstraint, insertIfAbsent, h]

lemma setup_pgvector_eq (s : SchemaState) (h : s.pgvAvailable = true) :
    setup_pgvector s = .ok { s with vectorExt := true } := by
  simp [setup_pgvector, h]

lemma set_vectorExt_self (s : SchemaState) (h : s.vectorExt = true) :
    ({ s with vectorExt := true } : SchemaState) = s := by
  obtain ⟨t, c, i, v, a⟩ := s
  subst h
  rfl

lemma foldl_insert_fixed (s : SchemaState) (L : List String)
    (h : ∀ i ∈ L, i ∈ s.indexes) :
    L.foldl (fun st i => { st with indexes := insertIfAbsent st.indexes i }) s = s := by
  induction L with
  | nil => rfl
  | cons a L ih =>
    have ha : a ∈ s.indexes := h a (List.mem_cons_self a L)
    have hstep : ({ s with indexes := insertIfAbsent s.indexes a } : SchemaState) = s := by
      rw [insertIfAbsent_of_mem ha]
    rw [List.foldl_cons, hstep]
    exact ih fun i hi => h i (List.mem_cons_of_mem a hi)

lemma create_indexes_fixed (s : SchemaState)
    (h9 : ∀ i ∈ plain_indexes, i ∈ s.indexes)
    (hv : "idx_embeddings_vector" ∈ s.indexes)
    (ha : s.pgvAvailable = true) :
    create_indexes s = s := by
  unfold create_indexes
  rw [foldl_insert_fixed s plain_indexes h9, if_pos ha, insertIfAbsent_of_mem hv]

/-- A catalog state in which every object `setup_all` manages is already
present. -/
def schemaReady (s : SchemaState) : Prop :=
  "analysis_registry" ∈ s.tables ∧ "stg_rejects" ∈ s.tables ∧
  "insights_cache" ∈ s.tables ∧ "query_history" ∈ s.tables ∧
  "embeddings" ∈ s.tables ∧
  ("insights_cache", "fk_insights_analysis") ∈ s.constraints ∧
  ("query_history", "fk_query_analysis") ∈ s.constraints ∧
  ("embeddings", "fk_embeddings_analysis") ∈ s.constraints ∧
  (∀ i ∈ plain_indexes, i ∈ s.indexes) ∧
  "idx_embeddings_vector" ∈ s.indexes ∧
  s.vectorExt = true ∧ s.pgvAvailable = true

lemma setup_all_fixed (s : SchemaState) (h : schemaReady s) : setup_all s = .ok s := by
  obtain ⟨h1, h2, h3, h4, h5, hc1, hc2, hc3, h9, hv, hext, ha⟩ := h
  have hp : setup_pgvector s = .ok s := by
    rw [setup_pgvector_eq s ha, set_vectorExt_self s hext]
  have hta : create_analysis_registry s = .ok s := by
    rw [show create_analysis_registry s = create_table_checked "analysis_registry" s from rfl,
      create_table_checked_eq, insertIfAbsent_of_mem h1]
  have htb : create_stg_rejects s = .ok s := by
    rw [show create_stg_rejects s = create_table_checked "stg_rejects" s from rfl,
      create_table_checked_eq, insertIfAbsent_of_mem h2]
  have htc : create_insights_cache s = .ok s := by
    rw [show create_insights_cache s = create_table_checked "insights_cache" s from rfl,
      create_table_checked_eq, insertIfAbsent_of_mem h3]
  have htd : create_query_history s = .ok s := by
    rw [show create_query_history s = create_table_checked "query_history" s from rfl,
      create_table_checked_eq, insertIfAbsent_of_mem h4]
  have hte : create_embeddings s = .ok s := by
    rw [show create_embeddings s = create_table_checked "embeddings" s from rfl,
      create_table_checked_eq, insertIfAbsent_of_mem h5]
  have hf1 : add_fk_checked "insights_cache" "analysis_id" "fk_insights_analysis" s = .ok s := by
    rw [add_fk_checked_eq, insertIfAbsent_of_mem hc1]
  have hf2 : add_fk_checked "query_history" "analysis_id" "fk_query_analysis" s = .ok s := by
    rw [add_fk_checked_eq, insertIfAbsent_of_mem hc2]
  have hf3 : add_fk_checked "embeddings" "analysis_id" "fk_embeddings_analysis" s = .ok s := by
    rw [add_fk_checked_eq, insertIfAbsent_of_mem hc3]
  have hfk : add_foreign_keys s = .ok s := by
    simp only [add_foreign_keys, hf1, hf2, hf3, bind_ok_reduce]
    rfl
  simp only [setup_all, hp, hta, htb, htc, htd, hte, hfk, bind_ok_reduce,
    create_indexes_fixed s h9 hv ha]
  rfl

lemma foldl_insert_indexes (s : SchemaState) (L : List String) :
    (L.foldl (fun st i => { st with indexes := insertIfAbsent st.indexes i }) s)
      = { s with indexes := L.foldl insertIfAbsent s.indexes } := by
  induction L generalizing s with
  | nil => rfl
  | cons a L ih =>
    rw [List.foldl_cons, List.foldl_cons,
      ih { s with indexes := insertIfAbsent s.indexes a }]

lemma mem_foldl_insertIfAbsent {α : Type} [DecidableEq α] (L : List α) (l : List α) (x : α) :
    x ∈ L.foldl insertIfAbsent l ↔ x ∈ l ∨ x ∈ L := by
  induction L generalizing l with
  | nil => simp
  | cons a L ih =>
    rw [List.foldl_cons, ih]
    simp only [mem_insertIfAbsent, List.mem_cons]
    tauto

lemma create_indexes_tables (s : SchemaState) :
    (create_indexes s).tables = s.tables := by
  unfold create_indexes
  rw [foldl_insert_indexes]
  by_cases hv : s.pgvAvailable = true <;> simp [hv]

lemma create_indexes_constraints (s : SchemaState) :
    (create_indexes s).constraints = s.constraints := by
  unfold create_indexes
  rw [foldl_insert_indexes]
  by_cases hv : s.pgvAvailable = true <;> simp [hv]

lemma create_indexes_vectorExt (s : SchemaState) :
    (create_indexes s).vectorExt = s.vectorExt := by
  unfold create_indexes
  rw [foldl_insert_indexes]
  by_cases hv : s.pgvAvailable = true <;> simp [hv]

lemma create_indexes_pgvAvailable (s : SchemaState) :
    (create_indexes s).pgvAvailable = s.pgvAvailable := by
  unfold create_indexes
  rw [foldl_insert_indexes]
  by_cases hv : s.pgvAvailable = true <;> simp [hv]

lemma create_indexes_mem (s : SchemaState) (x : String)
    (hx : x ∈ s.indexes ∨ x ∈ plain_indexes) : x ∈ (create_indexes s).indexes := by
  unfold create_indexes
  rw [foldl_insert_indexes]
  by_cases hv : s.pgvAvailable = true <;>
    simp [hv, mem_insertIfAbsent, mem_foldl_insertIfAbsent] <;> tauto

lemma create_indexes_vector_mem (s : SchemaState) (ha : s.pgvAvailable = true) :
    "idx_embeddings_vector" ∈ (create_indexes s).indexes := by
  unfold create_indexes
  rw [foldl_insert_indexes]
  simp [ha, mem_insertIfAbsent]

set_option maxHeartbeats 1000000 in
lemma setup_all_ready (s s' : SchemaState) (h : setup_all s = .ok s') :
    schemaReady s' := by
  by_cases ha : s.pgvAvailable = true
  · simp only [setup_all, setup_pgvector_eq s ha, create_analysis_registry,
      create_stg_rejects, create_insights_cache, create_query_history, create_embeddings,
      create_table_checked_eq, add_foreign_keys, add_fk_checked_eq, bind_ok_reduce,
      pure_eq_ok, Except.ok.injEq] at h
    rw [← h]
    refine ⟨?_, ?_, ?_, ?_, ?_, ?_, ?_, ?_, ?_, ?_, ?_, ?_⟩
    · rw [create_indexes_tables]
      simp [mem_insertIfAbsent]
    · rw [create_indexes_tables]
      simp [mem_insertIfAbsent]
    · rw [create_indexes_tables]
      simp [mem_insertIfAbsent]
    · rw [create_indexes_tables]
      simp [mem_insertIfAbsent]
    · rw [create_indexes_tables]
      simp [mem_insertIfAbsent]
    · rw [create_indexes_constraints]
      simp [mem_insertIfAbsent]
    · rw [create_indexes_constraints]
      simp [mem_insertIfAbsent]
    · rw [create_indexes_constraints]
      simp [mem_insertIfAbsent]
    · intro i hi
      exact create_indexes_mem _ i (Or.inr hi)
    · exact create_indexes_vector_mem _ ha
    · rw [create_indexes_vectorExt]
    · rw [create_indexes_pgvAvailable]
      exact ha
  · rw [Bool.not_eq_true] at ha
    simp [setup_all, setup_pgvector, ha, bind_error_reduce] at h

/-- Claim C9: running the schema provisioner's full setup (without
dropping) twice in a row is idempotent — whenever the first run
succeeds with resulting catalog state, a second run from that state
succeeds as well, creates nothing, and returns the very same state. -/
theorem c9_setup_all_idempotent (s s' : SchemaState) (h : setup_all s = .ok s') :
    setup_all s' = .ok s' :=
  setup_all_fixed s' (setup_all_ready s s' h)

/-- Claim C9 witness: a run from the empty catalog succeeds, and a second
run reproduces its result exactly. -/
theorem c9_setup_all_idempotent_witness :
    setup_all ⟨[], [], [], false, true⟩ =
      .ok ⟨["analysis_registry", "stg_rejects", "insights_cache", "query_history",
            "embeddings"],
           [("insights_cache", "fk_insights_analysis"),
            ("query_history", "fk_query_analysis"),
            ("embeddings", "fk_embeddings_analysis")],
           ["idx_analysis_registry_session", "idx_analysis_registry_status",
            "idx_stg_rejects_source", "idx_stg_rejects_timestamp",
            "idx_insights_cache_analysis", "idx_insights_cache_type",
            "idx_query_history_analysis", "idx_embeddings_analysis",
            "idx_embeddings_type", "idx_embeddings_vector"],
           true, true⟩
    ∧ setup_all ⟨["analysis_registry", "stg_rejects", "insights_cache", "query_history",
            "embeddings"],
           [("insights_cache", "fk_insights_analysis"),
            ("query_history", "fk_query_analysis"),
            ("embeddings", "fk_embeddings_analysis")],
           ["idx_analysis_registry_session", "idx_analysis_registry_status",
            "idx_stg_rejects_source", "idx_stg_rejects_timestamp",
            "idx_insights_cache_analysis", "idx_insights_cache_type",
            "idx_query_history_analysis", "idx_embeddings_analysis",
            "idx_embeddings_type", "idx_embeddings_vector"],
           true, true⟩ =
      .ok ⟨["analysis_registry", "stg_rejects", "insights_cache", "query_history",
            "embeddings"],
           [("insights_cache", "fk_insights_analysis"),
            ("query_history", "fk_query_analysis"),
            ("embeddings", "fk_embeddings_analysis")],
           ["idx_analysis_registry_session", "idx_analysis_registry_status",
            "idx_stg_rejects_source", "idx_stg_rejects_timestamp",
            "idx_insights_cache_analysis", "idx_insights_cache_type",
            "idx_query_history_analysis", "idx_embeddings_analysis",
            "idx_embeddings_type", "idx_embeddings_vector"],
           true, true⟩ :=
  ⟨rfl, c9_setup_all_idempotent ⟨[], [], [], false, true⟩ _ rfl⟩

/-! ### Verification report (claim C10) -/

lemma verify_foldl (env : VerifyEnv) (ts : List String) (b : Bool) (log : List String) :
    (ts.foldl (verifyStep env) (b, log)).1
      = (b && ts.all fun t => env.tablePresent t && env.countOk t) := by
  induction ts generalizing b log with
  | nil => simp
  | cons t ts ih =>
    rw [List.foldl_cons, List.all_cons]
    by_cases h1 : env.tablePresent t
    · by_cases h2 : env.countOk t
      · simp [verifyStep, h1, h2, ih]
      · simp [verifyStep, h1, h2, ih]
    · simp [verifyStep, h1, ih]

lemma verify_setup_fst (env : VerifyEnv) :
    (verify_setup env).1
      = required_tables.all fun t => env.tablePresent t && env.countOk t := by
  unfold verify_setup
  cases hpg : env.pgvCheck with
  | ok b => cases b <;> simp [hpg, verify_foldl]
  | error m => simp [hpg, verify_foldl]

/-- Claim C10: `verify_setup` returns true exactly when the five required
tables all exist and each can be counted without error; the outcome of
the pgvector extension check — including a failure while checking —
never changes the returned boolean. -/
theorem c10_verify_setup_characterization (env : VerifyEnv) :
    ((verify_setup env).1 = true ↔
      ∀ t ∈ required_tables, env.tablePresent t = true ∧ env.countOk t = true)
    ∧ ∀ pg, (verify_setup { env with pgvCheck := pg }).1 = (verify_setup env).1 := by
  constructor
  · rw [verify_setup_fst]
    simp [List.all_eq_true, Bool.and_eq_true]
  · intro pg
    rw [verify_setup_fst, verify_setup_fst]

/-- Claim C10 witness: with all tables present and countable, the check
returns true even when the pgvector lookup itself raises. -/
theorem c10_verify_setup_characterization_witness :
    (verify_setup ⟨fun _ => true, fun _ => true, .error "connection refused"⟩).1 = true :=
  (c10_verify_setup_characterization
      ⟨fun _ => true, fun _ => true, .error "connection refused"⟩).1.mpr
    fun _ _ => ⟨rfl, rfl⟩

end AdaptiveIngestion
